import Mathlib

/-!
Verification of the conversation-handoff and thread-routing core of the
cpanda-bot repository (src/bot.py, src/file_operations.py).

The Python state lives in JSON files reloaded on every call; each helper
loads the file, reads or mutates the entry keyed by `str(user_id)`, and
saves it back.  We embed the stores as total maps `Nat → Option _` (a dict
keyed by user id), and each helper as a pure function from store to store,
paired with its return value where it has one.  Timestamps (`time.time()`)
are embedded as `Nat`; every arithmetic comparison the code performs
(`now - last < 20`, `now - last >= 20`) gives the same answer under
truncated `Nat` subtraction as under real subtraction, because a negative
difference and a truncated-to-zero difference fall on the same side of
both thresholds.
-/

namespace CpandaBot

/-- One value of the `data/admin_active.json` dict: the per-user record
written by `mark_admin_active` / `update_user_last_message` in bot.py. -/
structure AdminEntry where
  admin_id : Option Nat
  last_activity : Nat
  user_last_message : Nat
deriving DecidableEq, Repr

/-- The `data/admin_active.json` store, keyed by user id. -/
abbrev AdminStore := Nat → Option AdminEntry

/-- `admin_active[str(user_id)] = entry` followed by save. -/
def insertEntry (s : AdminStore) (u : Nat) (e : AdminEntry) : AdminStore :=
  fun k => if k = u then some e else s k

/-- `del admin_active[str(user_id)]` followed by save. -/
def eraseEntry (s : AdminStore) (u : Nat) : AdminStore :=
  fun k => if k = u then none else s k

/-- bot.py lines 107-125, `is_admin_actively_responding`: returns whether
the staff window (20 units since `last_activity`) is still open, and the
store it leaves behind — the code deletes the entry when the window has
expired before returning `False`. -/
def is_admin_actively_responding (s : AdminStore) (u now : Nat) :
    Bool × AdminStore :=
  match s u with
  | some e =>
      if now - e.last_activity < 20 then (true, s)
      else (false, eraseEntry s u)
  | none => (false, s)

/-- bot.py lines 127-135, `mark_admin_active`: staff replied to user `u`
at time `now`; `user_last_message` is carried over from any existing
entry, defaulting to `now`. -/
def mark_admin_active (s : AdminStore) (u adminId now : Nat) : AdminStore :=
  insertEntry s u
    { admin_id := some adminId
      last_activity := now
      user_last_message := ((s u).map (·.user_last_message)).getD now }

/-- bot.py lines 137-150, `update_user_last_message`: stamp the user's
message time; a fresh entry is created with `last_activity = 0`. -/
def update_user_last_message (s : AdminStore) (u now : Nat) : AdminStore :=
  match s u with
  | some e => insertEntry s u { e with user_last_message := now }
  | none =>
      insertEntry s u
        { admin_id := none, last_activity := 0, user_last_message := now }

/-- bot.py lines 152-171, `should_ai_respond_after_timeout`: AI takes
over (deleting the entry) when staff was active, the user's last message
came after the staff activity, and 20 units passed since that message. -/
def should_ai_respond_after_timeout (s : AdminStore) (u now : Nat) :
    Bool × AdminStore :=
  match s u with
  | some e =>
      if e.last_activity > 0 ∧ e.user_last_message > e.last_activity ∧
          now - e.user_last_message ≥ 20 then
        (true, eraseEntry s u)
      else (false, s)
  | none => (false, s)

/-- What the user-message path does with a message once it has passed the
ban and spam checks. -/
inductive MsgOutcome
  | forwardToStaff
  | aiReply
deriving DecidableEq, Repr

/-- bot.py lines 2888-2895, the gate inside `handle_message`:
`update_user_last_message(user_id)` followed by
`if is_admin_actively_responding(user_id) and not
should_ai_respond_after_timeout(user_id)` — Python evaluates the second
conjunct only when the first is true, and each call may mutate the store,
so the order of effects is preserved here. -/
def handle_message_gate (s : AdminStore) (u now : Nat) :
    MsgOutcome × AdminStore :=
  let s1 := update_user_last_message s u now
  let g := is_admin_actively_responding s1 u now
  if g.1 then
    let t := should_ai_respond_after_timeout g.2 u now
    if t.1 then (MsgOutcome.aiReply, t.2)
    else (MsgOutcome.forwardToStaff, t.2)
  else (MsgOutcome.aiReply, g.2)

/-- The events that touch the `admin_active` state of one conversation:
a staff reply inside the user's forum thread (bot.py line 3158,
`check_admin_reply` calling `mark_admin_active`), or a user message
reaching the gate of `handle_message`. -/
inductive Event
  | staffReply (adminId : Nat) (t : Nat)
  | userMsg (t : Nat)
deriving DecidableEq, Repr

def Event.time : Event → Nat
  | .staffReply _ t => t
  | .userMsg t => t

/-- One event processed for conversation `u`; a user message emits an
outcome, a staff reply emits none. -/
def stepEvent (u : Nat) (s : AdminStore) : Event → AdminStore × Option (Nat × MsgOutcome)
  | .staffReply a t => (mark_admin_active s u a t, none)
  | .userMsg t =>
      let r := handle_message_gate s u t
      (r.2, some (t, r.1))

/-- Process a sequence of events for conversation `u`, collecting the
timed outcomes of the user messages. -/
def runTrace (u : Nat) (s : AdminStore) : List Event → AdminStore × List (Nat × MsgOutcome)
  | [] => (s, [])
  | e :: es =>
      let r := stepEvent u s e
      let rest := runTrace u r.1 es
      (rest.1,
        match r.2 with
        | some o => o :: rest.2
        | none => rest.2)

/-- The guard the gate would use if the timeout check were dropped:
`if is_admin_actively_responding(user_id)` alone.  This is the simplified
form the refinement claim compares against. -/
def handle_message_gate_simple (s : AdminStore) (u now : Nat) :
    MsgOutcome × AdminStore :=
  let s1 := update_user_last_message s u now
  let g := is_admin_actively_responding s1 u now
  if g.1 then (MsgOutcome.forwardToStaff, g.2)
  else (MsgOutcome.aiReply, g.2)

lemma update_lookup (s : AdminStore) (u now : Nat) :
    (update_user_last_message s u now) u
      = some { admin_id := ((s u).map (·.admin_id)).getD none
               last_activity := ((s u).map (·.last_activity)).getD 0
               user_last_message := now } := by
  cases h : s u <;> simp [update_user_last_message, h, insertEntry]

/-- After `update_user_last_message` stamps the current time, the
timeout takeover can never trigger at that same time: the elapsed time
since the user's last message is zero. -/
lemma should_ai_after_update (s : AdminStore) (u now : Nat) :
    should_ai_respond_after_timeout (update_user_last_message s u now) u now
      = (false, update_user_last_message s u now) := by
  have h := update_lookup s u now
  simp [should_ai_respond_after_timeout, h, Nat.sub_self]

/-- Full evaluation of the gate: within the staff window the message is
forwarded (store merely restamped); outside it the entry is erased and
the AI answers. -/
lemma gate_eq (s : AdminStore) (u now : Nat) :
    handle_message_gate s u now
      = if now - (((s u).map (·.last_activity)).getD 0) < 20
        then (MsgOutcome.forwardToStaff, update_user_last_message s u now)
        else (MsgOutcome.aiReply, eraseEntry (update_user_last_message s u now) u) := by
  have h := update_lookup s u now
  by_cases hw : now - (((s u).map (·.last_activity)).getD 0) < 20
  · simp [handle_message_gate, is_admin_actively_responding, h, hw,
      should_ai_after_update]
  · simp [handle_message_gate, is_admin_actively_responding, h, hw]

lemma gate_simple_eq (s : AdminStore) (u now : Nat) :
    handle_message_gate_simple s u now
      = if now - (((s u).map (·.last_activity)).getD 0) < 20
        then (MsgOutcome.forwardToStaff, update_user_last_message s u now)
        else (MsgOutcome.aiReply, eraseEntry (update_user_last_message s u now) u) := by
  have h := update_lookup s u now
  by_cases hw : now - (((s u).map (·.last_activity)).getD 0) < 20
  · simp [handle_message_gate_simple, is_admin_actively_responding, h, hw]
  · simp [handle_message_gate_simple, is_admin_actively_responding, h, hw]

/-- While every event since some staff activity at time ≥ `T` stays
before `T + 20`, the conversation keeps an entry with
`last_activity ≥ T` and every user message is forwarded to staff. -/
lemma window_forward (u T : Nat) :
    ∀ (tr : List Event) (s : AdminStore) (e : AdminEntry),
      s u = some e → T ≤ e.last_activity →
      (∀ ev ∈ tr, T ≤ ev.time ∧ ev.time < T + 20) →
      ∀ p ∈ (runTrace u s tr).2, p.2 = MsgOutcome.forwardToStaff := by
  intro tr
  induction tr with
  | nil => intro s e hs hT htr p hp; simp [runTrace] at hp
  | cons ev es ih =>
      intro s e hs hT htr p hp
      cases ev with
      | staffReply a t =>
          have ht := htr (Event.staffReply a t) (by simp)
          simp only [runTrace, stepEvent] at hp
          refine ih (mark_admin_active s u a t)
            { admin_id := some a, last_activity := t,
              user_last_message := ((s u).map (·.user_last_message)).getD t }
            ?_ ht.1 (fun x hx => htr x (by simp [hx])) p hp
          simp [mark_admin_active, insertEntry]
      | userMsg t =>
          have ht : T ≤ t ∧ t < T + 20 := by
            simpa [Event.time] using htr (Event.userMsg t) (by simp)
          have hla : t - (((s u).map (·.last_activity)).getD 0) < 20 := by
            simp only [hs, Option.map_some', Option.getD_some]
            omega
          have hgate := gate_eq s u t
          rw [if_pos hla] at hgate
          simp only [runTrace, stepEvent, hgate, List.mem_cons] at hp
          rcases hp with hp | hp
          · simp [hp]
          · refine ih (update_user_last_message s u t)
              { admin_id := ((s u).map (·.admin_id)).getD none,
                last_activity := ((s u).map (·.last_activity)).getD 0,
                user_last_message := t }
              (update_lookup s u t) ?_
              (fun x hx => htr x (by simp [hx])) p hp
            simp only [hs, Option.map_some', Option.getD_some]
            exact hT

/-- C1: once staff activity for user `u` is recorded at time `T` via
`mark_admin_active`, every user message handled by the gate of
`handle_message` strictly before `T + 20` (even across staff re-arms) is
forwarded to the staff thread; no automated AI reply is produced within
the window. -/
theorem C1_no_premature_ai_reply (s₀ : AdminStore) (u a T : Nat)
    (tr : List Event)
    (htr : ∀ ev ∈ tr, T ≤ ev.time ∧ ev.time < T + 20) :
    ∀ p ∈ (runTrace u s₀ (Event.staffReply a T :: tr)).2,
      p.2 = MsgOutcome.forwardToStaff := by
  intro p hp
  simp only [runTrace, stepEvent] at hp
  refine window_forward u T tr (mark_admin_active s₀ u a T)
    { admin_id := some a, last_activity := T,
      user_last_message := ((s₀ u).map (·.user_last_message)).getD T }
    ?_ (le_refl T) htr p hp
  simp [mark_admin_active, insertEntry]

theorem C1_witness :
    (5, MsgOutcome.aiReply)
      ∉ (runTrace 7 (fun _ => none)
          [Event.staffReply 1 0, Event.userMsg 5, Event.staffReply 1 10,
            Event.userMsg 19]).2 := by
  intro hmem
  have h := C1_no_premature_ai_reply (fun _ => none) 7 1 0
      [Event.userMsg 5, Event.staffReply 1 10, Event.userMsg 19]
      (by decide) (5, MsgOutcome.aiReply) hmem
  simp at h

/-- C2 counterexample: staff replies at t=0 and the user messages at t=5;
processing these events forwards the t=5 message to staff and the
outcome list contains no automated reply at t=20 (nor anywhere): the
code arms no deferred task, so nothing ever fires at window expiry. -/
theorem C2_counterexample :
    (runTrace 7 (fun _ => none) [Event.staffReply 1 0, Event.userMsg 5]).2
      = [(5, MsgOutcome.forwardToStaff)]
    ∧ (20, MsgOutcome.aiReply)
        ∉ (runTrace 7 (fun _ => none)
            [Event.staffReply 1 0, Event.userMsg 5]).2 := by
  decide

/-- C2 amended: there is no deferred task; the user message at t=5 is
forwarded to staff and never auto-answered.  The staff window merely
lapses, so the next user message after expiry (t=25) gets an automated
reply and the admin-active entry is removed (back to AI-immediate). -/
theorem C2_amended_behavior :
    (runTrace 7 (fun _ => none)
        [Event.staffReply 1 0, Event.userMsg 5, Event.userMsg 25]).2
      = [(5, MsgOutcome.forwardToStaff), (25, MsgOutcome.aiReply)]
    ∧ (runTrace 7 (fun _ => none)
        [Event.staffReply 1 0, Event.userMsg 5, Event.userMsg 25]).1 7
          = none := by
  decide

/-- A store holding a staff-window entry for user 7 whose window has
long expired. -/
def expiredStore : AdminStore := fun k =>
  if k = 7 then
    some { admin_id := some 1, last_activity := 0, user_last_message := 0 }
  else none

/-- C5 counterexample: querying the staff window for user 7 at time 25
(entry stamped at 0, window 20) returns false and mutates the stored
mapping: the expired entry is deleted, so the query is not
side-effect free. -/
theorem C5_counterexample :
    (is_admin_actively_responding expiredStore 7 25).1 = false
    ∧ (is_admin_actively_responding expiredStore 7 25).2 ≠ expiredStore := by
  refine ⟨rfl, fun hcontra => ?_⟩
  have h7 := congrFun hcontra 7
  simp [is_admin_actively_responding, eraseEntry, expiredStore] at h7

/-- C5 amended: the staff-window query is side-effect free whenever it
returns true or no entry exists; in the remaining case (an entry whose
window has expired) it deletes that entry before returning false. -/
theorem C5_amended_effect (s : AdminStore) (u now : Nat) :
    (is_admin_actively_responding s u now).2
      = if (is_admin_actively_responding s u now).1 then s
        else
          match s u with
          | none => s
          | some _ => eraseEntry s u := by
  cases h : s u with
  | none => simp [is_admin_actively_responding, h]
  | some e =>
      by_cases hw : now - e.last_activity < 20
      · simp [is_admin_actively_responding, h, hw]
      · simp [is_admin_actively_responding, h, hw]

/-- C6: the staff-activity timestamp is advanced only by staff actions:
`mark_admin_active` sets it to the staff reply time; processing a user
message (`update_user_last_message`, and the whole gate) leaves it at
its previous value — creating a fresh entry only with value 0 — or
removes the entry altogether (on expiry), never advances it. -/
theorem C6_staff_timestamp_only_staff (s : AdminStore) (u a now : Nat) :
    ((mark_admin_active s u a now) u).map (·.last_activity) = some now
    ∧ ((update_user_last_message s u now) u).map (·.last_activity)
        = some (((s u).map (·.last_activity)).getD 0)
    ∧ (((handle_message_gate s u now).2 u).map (·.last_activity)
          = some (((s u).map (·.last_activity)).getD 0)
        ∨ (handle_message_gate s u now).2 u = none) := by
  refine ⟨by simp [mark_admin_active, insertEntry], ?_, ?_⟩
  · simp [update_lookup]
  · rw [gate_eq]
    by_cases hw : now - (((s u).map (·.last_activity)).getD 0) < 20
    · rw [if_pos hw]; left; simp [update_lookup]
    · rw [if_neg hw]; right; simp [eraseEntry]

/-!
Thread directory: `data/active_threads.json` maps a user id to either a
plain integer thread id (new format) or a legacy dict
`{"thread_id": n}` (old format); bot.py lines 3035-3119
(`get_or_create_thread_id`) and 3143-3152 (`check_admin_reply`).

External effects of `get_or_create_thread_id` are abstracted by an
environment: the probe (the 🔄 test message sent into a cached thread
and immediately deleted — any exception in either call lands in the same
handler), the `create_forum_topic` call, and the welcome message sent
into a freshly created thread.
-/

/-- One value of the `data/active_threads.json` dict. -/
inductive ThreadVal
  | intVal (n : Nat)
  | dictVal (tid : Option Nat)
deriving DecidableEq, Repr

/-- The `data/active_threads.json` store, keyed by user id. -/
abbrev ThreadStore := Nat → Option ThreadVal

def insertThread (s : ThreadStore) (u : Nat) (v : ThreadVal) : ThreadStore :=
  fun k => if k = u then some v else s k

def eraseThread (s : ThreadStore) (u : Nat) : ThreadStore :=
  fun k => if k = u then none else s k

/-- Outcome of one send-class call to the Telegram gateway. -/
inductive SendResult
  | ok
  | errMissing
  | errTransient
deriving DecidableEq, Repr

/-- bot.py lines 3043-3047 and 3144-3149: extract the thread id from
either entry shape (`isinstance(..., dict)` branch vs plain value). -/
def cached_tid : ThreadVal → Option Nat
  | .intVal n => some n
  | .dictVal o => o

/-- Python truthiness of `if thread_id:` — `None` and `0` are falsy. -/
def pyTruthyTid : Option Nat → Option Nat
  | some n => if n = 0 then none else some n
  | none => none

/-- External behavior seen by `get_or_create_thread_id`. -/
structure GatewayEnv where
  probe : Nat → SendResult
  createResult : Option Nat
  welcomeSend : SendResult

/-- Result of one `get_or_create_thread_id` call: the returned thread id
(`None` on failure), the store it leaves persisted, and how many
`create_forum_topic` calls it made. -/
structure GocResult where
  ret : Option Nat
  store : ThreadStore
  createCalls : Nat

/-- bot.py lines 3091-3116: `create_forum_topic`, then persist the new
id in plain-integer shape, then the welcome message; an exception from
the welcome send is caught by the same handler and yields `None`, but
the mapping has already been saved. -/
def create_new_topic (env : GatewayEnv) (store : ThreadStore) (u : Nat) :
    GocResult :=
  match env.createResult with
  | some tid =>
      let store' := insertThread store u (ThreadVal.intVal tid)
      match env.welcomeSend with
      | SendResult.ok => ⟨some tid, store', 1⟩
      | _ => ⟨none, store', 1⟩
  | none => ⟨none, store, 1⟩

/-- bot.py lines 3035-3119, `get_or_create_thread_id`: resolve the
cached entry (either shape); probe a truthy cached id with a test
message — any failure deletes the mapping and falls through to
creation; otherwise create a fresh topic. -/
def get_or_create_thread_id (env : GatewayEnv) (store : ThreadStore)
    (u : Nat) : GocResult :=
  match store u with
  | some v =>
      match pyTruthyTid (cached_tid v) with
      | some tid =>
          match env.probe tid with
          | SendResult.ok => ⟨some tid, store, 0⟩
          | _ => create_new_topic env (eraseThread store u) u
      | none => create_new_topic env store u
  | none => create_new_topic env store u

/-- bot.py lines 3143-3152, the loop in `check_admin_reply` that finds
which user owns a forum thread, handling both entry shapes; dict
iteration order is embedded as a list of key-value pairs. -/
def resolve_thread_user (entries : List (Nat × ThreadVal)) (tid : Nat) :
    Option Nat :=
  match entries with
  | [] => none
  | (uid, v) :: rest =>
      if cached_tid v = some tid then some uid
      else resolve_thread_user rest tid

/-- C3: resolving a thread for a brand-new user, twice, with a working
gateway and no intervening invalidation (the probe of the created
thread succeeds), performs exactly one `create_forum_topic` call; the
second call returns the same id straight from the persisted cache. -/
theorem C3_idempotent_creation (env : GatewayEnv) (store : ThreadStore)
    (u n : Nat) (hfresh : store u = none)
    (hcreate : env.createResult = some n) (hn : n ≠ 0)
    (hwelcome : env.welcomeSend = SendResult.ok)
    (hprobe : env.probe n = SendResult.ok) :
    (get_or_create_thread_id env store u).ret = some n
    ∧ (get_or_create_thread_id env store u).createCalls = 1
    ∧ (get_or_create_thread_id env
          (get_or_create_thread_id env store u).store u).ret = some n
    ∧ (get_or_create_thread_id env
          (get_or_create_thread_id env store u).store u).createCalls
        = 0 := by
  have h1 : get_or_create_thread_id env store u
      = ⟨some n, insertThread store u (ThreadVal.intVal n), 1⟩ := by
    simp [get_or_create_thread_id, create_new_topic, hfresh, hcreate,
      hwelcome]
  refine ⟨by rw [h1], by rw [h1], ?_, ?_⟩ <;>
    rw [h1] <;>
    simp [get_or_create_thread_id, insertThread, cached_tid, pyTruthyTid,
      hn, hprobe]

theorem C3_witness :
    (get_or_create_thread_id
        ⟨fun _ => SendResult.ok, some 77, SendResult.ok⟩
        (fun _ => none) 3).ret = some 77
    ∧ (get_or_create_thread_id
        ⟨fun _ => SendResult.ok, some 77, SendResult.ok⟩
        (fun _ => none) 3).createCalls = 1
    ∧ (get_or_create_thread_id
        ⟨fun _ => SendResult.ok, some 77, SendResult.ok⟩
        (get_or_create_thread_id
          ⟨fun _ => SendResult.ok, some 77, SendResult.ok⟩
          (fun _ => none) 3).store 3).ret = some 77
    ∧ (get_or_create_thread_id
        ⟨fun _ => SendResult.ok, some 77, SendResult.ok⟩
        (get_or_create_thread_id
          ⟨fun _ => SendResult.ok, some 77, SendResult.ok⟩
          (fun _ => none) 3).store 3).createCalls = 0 :=
  C3_idempotent_creation
    ⟨fun _ => SendResult.ok, some 77, SendResult.ok⟩
    (fun _ => none) 3 77 rfl rfl (by decide) rfl rfl

/-- A directory holding thread 500 for user 9, and an environment whose
probe fails with a transient (network-class) error while creation
succeeds with thread 600. -/
def transientStore : ThreadStore := fun k =>
  if k = 9 then some (ThreadVal.intVal 500) else none

def transientEnv : GatewayEnv :=
  ⟨fun _ => SendResult.errTransient, some 600, SendResult.ok⟩

/-- C4 counterexample: a transient error on the probe send to user 9's
existing thread 500 mutates the directory: the cached mapping is
deleted and replaced by freshly created thread 600, even though the
failure was not channel-missing. -/
theorem C4_counterexample :
    transientEnv.probe 500 = SendResult.errTransient
    ∧ transientStore 9 = some (ThreadVal.intVal 500)
    ∧ (get_or_create_thread_id transientEnv transientStore 9).store 9
        = some (ThreadVal.intVal 600) := by
  refine ⟨rfl, rfl, ?_⟩
  simp [get_or_create_thread_id, create_new_topic, transientEnv,
    transientStore, cached_tid, pyTruthyTid, insertThread, eraseThread]

/-- C4 amended: the code does not distinguish error classes — a
channel-missing probe failure and a transient probe failure produce
exactly the same result and the same directory mutation (invalidation
followed by re-creation). -/
theorem C4_amended_class_blind (c : Option Nat) (w : SendResult)
    (store : ThreadStore) (u : Nat) :
    get_or_create_thread_id ⟨fun _ => SendResult.errMissing, c, w⟩ store u
      = get_or_create_thread_id ⟨fun _ => SendResult.errTransient, c, w⟩
          store u := by
  unfold get_or_create_thread_id
  cases store u with
  | none => rfl
  | some v => cases pyTruthyTid (cached_tid v) <;> rfl

/-- C8: on the user-message path the composite guard
`is_admin_actively_responding && not should_ai_respond_after_timeout`
behaves exactly like the simple guard `is_admin_actively_responding`:
because `update_user_last_message` has just stamped the current time,
the timeout takeover always reports false there, with no state change. -/
theorem C8_gate_refines_simple_guard (s : AdminStore) (u now : Nat) :
    handle_message_gate s u now = handle_message_gate_simple s u now := by
  rw [gate_eq, gate_simple_eq]

/-!
The AI-response branch of `handle_message` (bot.py lines 2897-2993):
after the OpenAI completion, `update.message.reply_text(ai_response)` is
awaited, and only then `forward_conversation_to_admin_thread` runs; that
helper wraps all of its work — thread resolution/creation, the mirror
send into the thread, the general-chat fallback — in its own
`try/except`, so no mirror failure can reach `handle_message`'s handler.
An exception raised before or by `reply_text` (completion failure,
reply-send failure) jumps to the outer `except`, which sends the
apology message instead.
-/

/-- The user-visible and staff-visible send attempts the AI-response
branch performs, in program order. -/
inductive Action
  | replyUser
  | mirrorThread (tid : Nat)
  | mirrorGeneral
  | errorReply
deriving DecidableEq, Repr

/-- External outcomes for one pass through the AI-response branch. -/
structure ReplyEnv where
  gateway : GatewayEnv
  threadSend : SendResult
  generalSend : SendResult
  completionOk : Bool
  replySendOk : Bool

/-- bot.py lines 2995-3033, `forward_conversation_to_admin_thread`:
resolve or create the user's thread and mirror the conversation into it,
falling back to the general chat when no thread id is available; every
exception is absorbed by the function's own handler, so it is total and
the outcomes of the mirror sends themselves never alter control flow
outside it. -/
def forward_conversation_to_admin_thread (env : ReplyEnv)
    (store : ThreadStore) (u : Nat) : ThreadStore × List Action :=
  let r := get_or_create_thread_id env.gateway store u
  match r.ret with
  | some tid => (r.store, [Action.mirrorThread tid])
  | none => (r.store, [Action.mirrorGeneral])

/-- bot.py lines 2897-2993, the AI-response branch of `handle_message`:
completion, reply to the user, then mirror to staff; an exception from
the completion or the user reply lands in the outer handler which sends
the apology text. -/
def ai_response_path (env : ReplyEnv) (store : ThreadStore) (u : Nat) :
    ThreadStore × List Action :=
  if env.completionOk then
    if env.replySendOk then
      let m := forward_conversation_to_admin_thread env store u
      (m.1, Action.replyUser :: m.2)
    else (store, [Action.errorReply])
  else (store, [Action.errorReply])

/-- C7: whenever an automated reply is produced (completion and the
user-facing send succeed), the reply to the end user comes first and
the staff mirror is attempted only after it, for every possible gateway
behavior — including thread creation failing and every mirror send
failing; no mirror failure diverts the path to the error reply. -/
theorem C7_reply_independent_of_mirror (env : ReplyEnv)
    (store : ThreadStore) (u : Nat) (hc : env.completionOk = true)
    (hr : env.replySendOk = true) :
    (ai_response_path env store u).2
      = Action.replyUser
          :: (forward_conversation_to_admin_thread env store u).2
    ∧ Action.errorReply ∉ (ai_response_path env store u).2 := by
  have hpath : ai_response_path env store u
      = ((forward_conversation_to_admin_thread env store u).1,
          Action.replyUser
            :: (forward_conversation_to_admin_thread env store u).2) := by
    unfold ai_response_path
    rw [hc, hr]
    rfl
  have hfwd : Action.errorReply
      ∉ (forward_conversation_to_admin_thread env store u).2 := by
    unfold forward_conversation_to_admin_thread
    cases h : (get_or_create_thread_id env.gateway store u).ret <;>
      simp [h]
  refine ⟨by rw [hpath], ?_⟩
  rw [hpath]
  simp only [List.mem_cons, not_or]
  exact ⟨by simp, hfwd⟩

theorem C7_witness :
    (ai_response_path
        ⟨⟨fun _ => SendResult.errMissing, none, SendResult.errMissing⟩,
          SendResult.errTransient, SendResult.errTransient, true, true⟩
        (fun _ => none) 3).2
      = Action.replyUser
          :: (forward_conversation_to_admin_thread
              ⟨⟨fun _ => SendResult.errMissing, none, SendResult.errMissing⟩,
                SendResult.errTransient, SendResult.errTransient, true, true⟩
              (fun _ => none) 3).2
    ∧ Action.errorReply
        ∉ (ai_response_path
            ⟨⟨fun _ => SendResult.errMissing, none, SendResult.errMissing⟩,
              SendResult.errTransient, SendResult.errTransient, true, true⟩
            (fun _ => none) 3).2 :=
  C7_reply_independent_of_mirror
    ⟨⟨fun _ => SendResult.errMissing, none, SendResult.errMissing⟩,
      SendResult.errTransient, SendResult.errTransient, true, true⟩
    (fun _ => none) 3 rfl rfl

/-- C9: both persisted entry shapes are interchangeable: the extraction
shared by both resolution directions reads the same id from `n` and
`{"thread_id": n}`; the thread-to-user loop of `check_admin_reply`
resolves identically whichever shape an entry has; and whenever a
creation actually happens (`create_forum_topic` was called and
returned `m`), the stored entry is the plain-integer shape. -/
theorem C9_entry_shapes_interchangeable :
    (∀ n, cached_tid (ThreadVal.intVal n)
        = cached_tid (ThreadVal.dictVal (some n)))
    ∧ (∀ (pre post : List (Nat × ThreadVal)) (u n tid : Nat),
        resolve_thread_user (pre ++ (u, ThreadVal.intVal n) :: post) tid
          = resolve_thread_user
              (pre ++ (u, ThreadVal.dictVal (some n)) :: post) tid)
    ∧ (∀ (env : GatewayEnv) (store : ThreadStore) (u m : Nat),
        env.createResult = some m →
        (get_or_create_thread_id env store u).createCalls = 1 →
        (get_or_create_thread_id env store u).store u
          = some (ThreadVal.intVal m)) := by
  refine ⟨fun n => rfl, ?_, ?_⟩
  · intro pre post u n tid
    induction pre with
    | nil => rfl
    | cons hd tl ih =>
        obtain ⟨uid, v⟩ := hd
        simp only [List.cons_append, resolve_thread_user]
        exact if_congr Iff.rfl rfl ih
  · intro env store u m hm hcalls
    have hnew : ∀ st, (create_new_topic env st u).store u
        = some (ThreadVal.intVal m) := by
      intro st
      simp only [create_new_topic, hm]
      cases env.welcomeSend <;> simp [insertThread]
    cases hsu : store u with
    | none =>
        simp only [get_or_create_thread_id, hsu]
        exact hnew store
    | some v =>
        simp only [get_or_create_thread_id, hsu] at hcalls ⊢
        cases htid : pyTruthyTid (cached_tid v) with
        | none =>
            simp only [htid]
            exact hnew store
        | some tid =>
            simp only [htid] at hcalls ⊢
            cases hpr : env.probe tid with
            | ok => simp [hpr] at hcalls
            | errMissing =>
                simp only [hpr]
                exact hnew _
            | errTransient =>
                simp only [hpr]
                exact hnew _

theorem C9_witness :
    cached_tid (ThreadVal.intVal 5)
      = cached_tid (ThreadVal.dictVal (some 5))
    ∧ resolve_thread_user [(1, ThreadVal.intVal 5)] 5
        = resolve_thread_user [(1, ThreadVal.dictVal (some 5))] 5
    ∧ (get_or_create_thread_id
        ⟨fun _ => SendResult.ok, some 7, SendResult.ok⟩
        (fun _ => none) 2).store 2 = some (ThreadVal.intVal 7) :=
  ⟨C9_entry_shapes_interchangeable.1 5,
    C9_entry_shapes_interchangeable.2.1 [] [] 1 5 5,
    C9_entry_shapes_interchangeable.2.2
      ⟨fun _ => SendResult.ok, some 7, SendResult.ok⟩
      (fun _ => none) 2 7 rfl (by decide)⟩

/-!
Persistence layer: `load_json_file` exists twice, in bot.py lines 81-90
(catching `json.JSONDecodeError` and `FileNotFoundError`; any other
exception propagates) and in file_operations.py lines 9-18 (catching
`Exception`).  JSON documents are embedded as a small value type, the
file system as the state the `open`/`json.load` pair can be in.
-/

/-- A JSON document; `obj []` is the empty dict `{}`. -/
inductive JVal
  | obj (fields : List (String × JVal))
  | arr (items : List JVal)
  | str (s : String)
  | num (n : Int)
  | null

/-- What the `os.path.exists` / `open` / `json.load` sequence can
encounter for a given filename. -/
inductive FileState
  | missing
  | invalidJson
  | otherError
  | valid (v : JVal)

/-- bot.py lines 81-90, `load_json_file`: returns the parsed value, or
`default if default is not None else {}` when the file is missing or
its JSON is invalid; an exception outside the caught pair propagates. -/
def load_json_file (fs : FileState) (default : Option JVal) :
    Except Unit JVal :=
  match fs with
  | .valid v => Except.ok v
  | .missing => Except.ok (default.getD (JVal.obj []))
  | .invalidJson => Except.ok (default.getD (JVal.obj []))
  | .otherError => Except.error ()

/-- file_operations.py lines 9-18, the second `load_json_file`: same
shape, but `except Exception` makes every failure return the default. -/
def load_json_file_fileops (fs : FileState) (default : Option JVal) :
    JVal :=
  match fs with
  | .valid v => v
  | .missing => default.getD (JVal.obj [])
  | .invalidJson => default.getD (JVal.obj [])
  | .otherError => default.getD (JVal.obj [])

/-- C10: for every default, both `load_json_file` implementations return
the given default — the empty dict when the default is `None` — on a
missing file and on invalid JSON, without raising. -/
theorem C10_load_json_default (d : Option JVal) :
    load_json_file FileState.missing d
        = Except.ok (d.getD (JVal.obj []))
    ∧ load_json_file FileState.invalidJson d
        = Except.ok (d.getD (JVal.obj []))
    ∧ load_json_file FileState.missing none = Except.ok (JVal.obj [])
    ∧ load_json_file_fileops FileState.missing d = d.getD (JVal.obj [])
    ∧ load_json_file_fileops FileState.invalidJson d
        = d.getD (JVal.obj []) :=
  ⟨rfl, rfl, rfl, rfl, rfl⟩

end CpandaBot
